import Mathlib

/-!
Verification of the usage-credit ledger and billing-webhook core of the
bolt.diy fork.  The definitions below are a shallow embedding of:

  * `app/routes/usage.tsx`          — the `recordUsage` action (spend path)
  * `app/routes/api.stripe.webhook.ts` — the Stripe webhook processor
  * `app/routes/api.auth.ts`        — the `signUp` profile insert
  * the SQL migration (`src/unnamed/part_000`) — `profiles` / `usage_logs`
    tables, `handle_new_user` and `update_usage_credits` triggers
  * `app/lib/middleware/usage-middleware.ts` and `app/lib/usage/tracker.ts`

JavaScript numbers used as credit counts are modelled as `Int`; the route's
`typeof creditsUsed !== 'number'` guard is modelled by an `Option Int`
argument.  JS falsy tests on strings (`!userId`) are modelled as equality
with the empty string.  Database tables are association lists of rows;
`UPDATE ... WHERE id = x` maps over the list, `upsert ... onConflict` updates
the matching row or appends.  Fields of the real tables that no modelled
operation reads or writes (avatar, stripe_customer_id, timestamps, ...) are
omitted.
-/

namespace BoltBilling

/-- `charsStartWith pat l` : `pat` is an initial segment of `l`
(character-list version of JS `String.startsWith`). -/
def charsStartWith : List Char → List Char → Bool
  | [], _ => true
  | _ :: _, [] => false
  | a :: as, b :: bs => a == b && charsStartWith as bs

/-- `charsIncludes pat l` : `pat` occurs contiguously somewhere in `l`
(character-list version of JS `String.includes`). -/
def charsIncludes (pat : List Char) : List Char → Bool
  | [] => pat.isEmpty
  | c :: rest => charsStartWith pat (c :: rest) || charsIncludes pat rest

/-- `strIncludes s pat` : JS `s.includes(pat)`. -/
def strIncludes (s pat : String) : Bool :=
  charsIncludes pat.data s.data

/-- JS `s.toLowerCase()`, restricted to the ASCII range the compared
product-name keywords use. -/
def strToLower (s : String) : String :=
  ⟨s.data.map Char.toLower⟩

/-- One row of the `profiles` table (SQL migration, lines 2–15).  Columns not
touched by the modelled operations are omitted. -/
structure Profile where
  id : String
  email : String
  subscription_tier : String
  subscription_status : String
  usage_credits : Int
  usage_limit : Int
deriving DecidableEq

/-- One row of the `usage_logs` table (SQL migration, lines 18–25). -/
structure UsageLog where
  user_id : String
  action_type : String
  credits_used : Int
deriving DecidableEq

/-- One row of the `subscriptions` table, with the columns written by the
webhook upsert (`api.stripe.webhook.ts`, lines 52–75). -/
structure SubRow where
  stripe_subscription_id : String
  user_id : String
  status : String
  price_id : String
  quantity : Int
  cancel_at_period_end : Bool
  current_period_start : Int
  current_period_end : Int
  canceled_at : Option Int
  cancel_at : Option Int
  ended_at : Option Int
  trial_start : Option Int
  trial_end : Option Int
deriving DecidableEq

/-- The `prices` table joined with `products(name)`, flattened to the one
projection the code queries: `stripe_price_id → products.name`. -/
structure PriceRow where
  stripe_price_id : String
  product_name : Option String
deriving DecidableEq

/-- The durable store: the four tables the modelled code reads or writes. -/
structure DB where
  profiles : List Profile
  subscriptions : List SubRow
  usage_logs : List UsageLog
  prices : List PriceRow
deriving DecidableEq

/-- `UPDATE profiles SET ... WHERE id = uid` : apply `f` to every row whose
`id` equals `uid`. -/
def updateProfiles (l : List Profile) (uid : String) (f : Profile → Profile) :
    List Profile :=
  l.map (fun p => if p.id == uid then f p else p)

/-- `SELECT ... FROM profiles WHERE id = uid .single()`. -/
def findProfile (db : DB) (uid : String) : Option Profile :=
  db.profiles.find? (fun p => p.id == uid)

/-- The `update_usage_credits` trigger function (SQL migration, lines 68–82):
fires AFTER INSERT on `usage_logs` and decrements `usage_credits` of the
matching profile by `NEW.credits_used`.  `insertUsageLog` is therefore the
insert together with its trigger. -/
def update_usage_credits (l : List Profile) (log : UsageLog) : List Profile :=
  updateProfiles l log.user_id
    (fun p => { p with usage_credits := p.usage_credits - log.credits_used })

/-- `INSERT INTO usage_logs ...` including the AFTER INSERT trigger. -/
def insertUsageLog (db : DB) (log : UsageLog) : DB :=
  { db with
      usage_logs := db.usage_logs ++ [log]
      profiles := update_usage_credits db.profiles log }

/-- Result of the `recordUsage` action (`usage.tsx`, lines 437–492):
400 on missing fields, 500 on profile fetch failure, 403 with the current
balance on insufficient credits, 200 payload on success. -/
inductive SpendResult where
  | badRequest
  | profileFetchFailed
  | insufficient (creditsRemaining : Int)
  | accepted (creditsUsed creditsRemaining usageLimit : Int)
deriving DecidableEq

/-- The `recordUsage` action of `app/routes/usage.tsx` (lines 437–492), run
with no interleaving between its database calls:
1. reject unless `userId`, `actionType` are truthy and `creditsUsed` a number;
2. fetch the profile;
3. if `profile.usage_credits < creditsUsed` return 403 carrying
   `creditsRemaining = profile.usage_credits`, mutating nothing;
4. insert the `usage_logs` row (whose trigger decrements the balance);
5. overwrite `usage_credits` with the value `profile.usage_credits -
   creditsUsed` computed from the step-2 snapshot. -/
def recordUsage (db : DB) (userId actionType : String)
    (creditsUsed : Option Int) : SpendResult × DB :=
  match creditsUsed with
  | none => (.badRequest, db)
  | some c =>
    if userId = "" ∨ actionType = "" then (.badRequest, db)
    else
      match findProfile db userId with
      | none => (.profileFetchFailed, db)
      | some profile =>
        if profile.usage_credits < c then
          (.insufficient profile.usage_credits, db)
        else
          let db1 := insertUsageLog db ⟨userId, actionType, c⟩
          let newCredits := profile.usage_credits - c
          let db2 := { db1 with
            profiles := updateProfiles db1.profiles userId
              (fun p => { p with usage_credits := newCredits }) }
          (.accepted c newCredits profile.usage_limit, db2)

/-- A sequence of `recordUsage` calls executed one after the other. -/
def spendAll (db : DB) (reqs : List (String × String × Option Int)) : DB :=
  reqs.foldl (fun d r => (recordUsage d r.1 r.2.1 r.2.2).2) db

/-! ## Webhook event processor (`app/routes/api.stripe.webhook.ts`) -/

/-- The `subscription` object carried by `customer.subscription.*` events:
the fields the handler reads.  `metadataUserId` is `subscription.metadata?.userId`,
`priceId` is `subscription.items.data[0].price.id`. -/
structure SubObj where
  id : String
  status : String
  metadataUserId : Option String
  priceId : String
  quantity : Int
  cancelAtPeriodEnd : Bool
  currentPeriodStart : Int
  currentPeriodEnd : Int
  canceledAt : Option Int
  cancelAt : Option Int
  endedAt : Option Int
  trialStart : Option Int
  trialEnd : Option Int
deriving DecidableEq

/-- The `invoice` object carried by `invoice.*` events: the fields the
handler reads (`invoice.subscription`, `invoice.customer`). -/
structure InvoiceObj where
  subscriptionId : Option String
  customerId : Option String
deriving DecidableEq

/-- A Stripe webhook event after signature verification, dispatched on
`event.type`.  `previousStatus` is `event.data.previous_attributes?.status`
(present only on `customer.subscription.updated`).  `occurredAt` is the
provider's `event.created` timestamp; the handler never reads it. -/
inductive StripeEvent where
  | subscriptionCreated (sub : SubObj) (occurredAt : Int)
  | subscriptionUpdated (sub : SubObj) (previousStatus : Option String)
      (occurredAt : Int)
  | subscriptionDeleted (sub : SubObj) (occurredAt : Int)
  | invoicePaymentSucceeded (inv : InvoiceObj) (occurredAt : Int)
  | invoicePaymentFailed (inv : InvoiceObj) (occurredAt : Int)
  | otherEvent (eventType : String) (occurredAt : Int)
deriving DecidableEq

/-- Responses of the webhook action: 200 `{received:true}`, 400, 500. -/
inductive WebhookResp where
  | received
  | badRequest (msg : String)
  | serverError (msg : String)
deriving DecidableEq

/-- JS truthiness of an optional string: `undefined` and `""` are falsy. -/
def jsFalsy : Option String → Bool
  | none => true
  | some s => s == ""

/-- Tier resolution as inlined in the webhook (lines 110–122 and 218–230):
start from `('basic', 500)`; if the joined product name is truthy, lowercase
it and test `includes('premium')` first, then `includes('enterprise')`. -/
def resolveTier (productName : Option String) : String × Int :=
  match productName with
  | none => ("basic", 500)
  | some name =>
    if name = "" then ("basic", 500)
    else
      let n := strToLower name
      if strIncludes n "premium" then ("premium", 2000)
      else if strIncludes n "enterprise" then ("enterprise", 10000)
      else ("basic", 500)

/-- `SELECT products(name) FROM prices WHERE stripe_price_id = pid .single()`
followed by the `price?.products?.name` projection. -/
def lookupProductName (prices : List PriceRow) (pid : String) : Option String :=
  match prices.find? (fun r => r.stripe_price_id == pid) with
  | none => none
  | some r => r.product_name

/-- The row written by the subscription upsert (webhook lines 52–75). -/
def subRowOfEvent (sub : SubObj) (uid : String) : SubRow :=
  { stripe_subscription_id := sub.id
    user_id := uid
    status := sub.status
    price_id := sub.priceId
    quantity := sub.quantity
    cancel_at_period_end := sub.cancelAtPeriodEnd
    current_period_start := sub.currentPeriodStart
    current_period_end := sub.currentPeriodEnd
    canceled_at := sub.canceledAt
    cancel_at := sub.cancelAt
    ended_at := sub.endedAt
    trial_start := sub.trialStart
    trial_end := sub.trialEnd }

/-- `upsert(..., { onConflict: 'stripe_subscription_id' })`: update the
matching row in place, or append when none matches. -/
def upsertSub (l : List SubRow) (row : SubRow) : List SubRow :=
  if l.any (fun r => r.stripe_subscription_id == row.stripe_subscription_id) then
    l.map (fun r =>
      if r.stripe_subscription_id == row.stripe_subscription_id then row else r)
  else l ++ [row]

/-- `UPDATE subscriptions SET ... WHERE stripe_subscription_id = sid`. -/
def updateSubs (l : List SubRow) (sid : String) (f : SubRow → SubRow) :
    List SubRow :=
  l.map (fun r => if r.stripe_subscription_id == sid then f r else r)

/-- `SELECT user_id FROM subscriptions WHERE stripe_subscription_id = sid
.single()`. -/
def findSubRow (db : DB) (sid : String) : Option SubRow :=
  db.subscriptions.find? (fun r => r.stripe_subscription_id == sid)

/-- The credit-refill guard of the created/updated branch (lines 96–102):
status is `active` and the event is a creation, or an update whose
`previous_attributes.status` is truthy and not `active`. -/
def isReactivation (status : String) (isCreated : Bool)
    (previousStatus : Option String) : Bool :=
  status == "active" &&
    (isCreated ||
      (!isCreated &&
        match previousStatus with
        | none => false
        | some s => !(s == "") && !(s == "active")))

/-- Shared body of `customer.subscription.created|updated` (lines 41–141):
reject when `metadata.userId` is falsy; upsert the subscription row; copy the
event's status onto the profile; when `isReactivation`, resolve the tier from
the price's product name and overwrite tier, `usage_credits` and
`usage_limit` with the resolved limit. -/
def handleSubscriptionUpsert (db : DB) (sub : SubObj) (isCreated : Bool)
    (previousStatus : Option String) : WebhookResp × DB :=
  match sub.metadataUserId with
  | none => (.badRequest "No userId found in subscription metadata", db)
  | some uid =>
    if uid = "" then (.badRequest "No userId found in subscription metadata", db)
    else
      let db1 := { db with
        subscriptions := upsertSub db.subscriptions (subRowOfEvent sub uid) }
      let db2 := { db1 with
        profiles := updateProfiles db1.profiles uid
          (fun p => { p with subscription_status := sub.status }) }
      if isReactivation sub.status isCreated previousStatus then
        let tier := (resolveTier (lookupProductName db2.prices sub.priceId)).1
        let usageLimit := (resolveTier (lookupProductName db2.prices sub.priceId)).2
        let db3 := { db2 with
          profiles := updateProfiles db2.profiles uid
            (fun p => { p with
              subscription_tier := tier
              usage_credits := usageLimit
              usage_limit := usageLimit }) }
        (.received, db3)
      else (.received, db2)

/-- `customer.subscription.deleted` (lines 143–182): reject when
`metadata.userId` is falsy; write status and `ended_at` onto the subscription
row; set the profile to `{status: canceled, tier: free, usage_limit: 100}`
(comment in source: "Reset to free tier limit") — `usage_credits` untouched. -/
def handleSubscriptionDeleted (db : DB) (sub : SubObj) : WebhookResp × DB :=
  match sub.metadataUserId with
  | none => (.badRequest "No userId found in subscription metadata", db)
  | some uid =>
    if uid = "" then (.badRequest "No userId found in subscription metadata", db)
    else
      let db1 := { db with
        subscriptions := updateSubs db.subscriptions sub.id
          (fun r => { r with status := sub.status, ended_at := sub.endedAt }) }
      let db2 := { db1 with
        profiles := updateProfiles db1.profiles uid
          (fun p => { p with
            subscription_status := "canceled"
            subscription_tier := "free"
            usage_limit := 100 }) }
      (.received, db2)

/-- `invoice.payment_succeeded` (lines 184–247): reject when the invoice's
subscription or customer reference is falsy; look up the local subscription
row for `user_id` (500 when absent); retrieve the subscription from Stripe
(`stripeSubs` models `stripe.subscriptions.retrieve`, a retrieval failure is
the thrown/caught 500); resolve the tier from its price's product name;
overwrite `usage_credits` and `usage_limit` with the resolved limit (the
tier column is not written on this path). -/
def handleInvoicePaid (stripeSubs : List (String × SubObj)) (db : DB)
    (inv : InvoiceObj) : WebhookResp × DB :=
  if jsFalsy inv.subscriptionId || jsFalsy inv.customerId then
    (.badRequest "Missing subscription or customer ID in invoice", db)
  else
    match inv.subscriptionId with
    | none => (.badRequest "Missing subscription or customer ID in invoice", db)
    | some sid =>
      match findSubRow db sid with
      | none => (.serverError "Error fetching subscription", db)
      | some row =>
        match stripeSubs.find? (fun s => s.1 == sid) with
        | none => (.serverError "Webhook error", db)
        | some (_, stripeSub) =>
          let usageLimit :=
            (resolveTier (lookupProductName db.prices stripeSub.priceId)).2
          let db1 := { db with
            profiles := updateProfiles db.profiles row.user_id
              (fun p => { p with
                usage_credits := usageLimit
                usage_limit := usageLimit }) }
          (.received, db1)

/-- `invoice.payment_failed` (lines 249–286): reject when the subscription
reference is falsy; look up the local subscription row for `user_id` (500
when absent); set the profile's status to `past_due`. -/
def handleInvoiceFailed (db : DB) (inv : InvoiceObj) : WebhookResp × DB :=
  if jsFalsy inv.subscriptionId then
    (.badRequest "Missing subscription ID in invoice", db)
  else
    match inv.subscriptionId with
    | none => (.badRequest "Missing subscription ID in invoice", db)
    | some sid =>
      match findSubRow db sid with
      | none => (.serverError "Error fetching subscription", db)
      | some row =>
        let db1 := { db with
          profiles := updateProfiles db.profiles row.user_id
            (fun p => { p with subscription_status := "past_due" }) }
        (.received, db1)

/-- The event dispatch of the webhook `action` (lines 40–291), after
signature verification.  Unrecognized event types fall through to the 200
acknowledgement. -/
def handleEvent (stripeSubs : List (String × SubObj)) (db : DB)
    (e : StripeEvent) : WebhookResp × DB :=
  match e with
  | .subscriptionCreated sub _ => handleSubscriptionUpsert db sub true none
  | .subscriptionUpdated sub prev _ => handleSubscriptionUpsert db sub false prev
  | .subscriptionDeleted sub _ => handleSubscriptionDeleted db sub
  | .invoicePaymentSucceeded inv _ => handleInvoicePaid stripeSubs db inv
  | .invoicePaymentFailed inv _ => handleInvoiceFailed db inv
  | .otherEvent _ _ => (.received, db)

/-- The webhook processor applied to a full billing event.  The event's
`eventId` (its idempotency key) is passed in but — exactly as in the source,
which never reads `event.id` and keeps no record of processed events — it
does not influence the result. -/
def processBillingEvent (stripeSubs : List (String × SubObj)) (db : DB)
    (eventId : String) (e : StripeEvent) : WebhookResp × DB :=
  let _ := eventId
  handleEvent stripeSubs db e

/-! ## Account creation paths -/

/-- The `handle_new_user` trigger function (SQL migration, lines 46–61):
profile inserted on auth signup with tier `free`, status `active`, 10
credits and limit 10; `username` is the local part of the email. -/
def handle_new_user (id email : String) : Profile :=
  { id := id
    email := email
    subscription_tier := "free"
    subscription_status := "active"
    usage_credits := 10
    usage_limit := 10 }

/-- The profile insert of the `signUp` case of `app/routes/api.auth.ts`
(lines 38–54): tier `free`, 100 credits, limit 100; `subscription_status`
comes from the column default `'active'` of the migration. -/
def signUpProfile (id email : String) : Profile :=
  { id := id
    email := email
    subscription_tier := "free"
    subscription_status := "active"
    usage_credits := 100
    usage_limit := 100 }

/-! ## Interleaved spend calls

The `recordUsage` action performs three separate awaited database calls:
the profile `select`, the `usage_logs` insert (whose trigger decrement is
atomic with it), and the absolute `usage_credits` update computed from the
earlier snapshot.  Two concurrent requests may interleave between any two of
these calls.  Each database call is one atomic step of a thread; the
credit comparison uses only the fetched snapshot, so it is bundled with the
read step. -/

/-- Progress of one in-flight `recordUsage` request. `snapshot` is the
`profile.usage_credits` value the request read; `limit` the read
`usage_limit`. -/
inductive SpendPhase where
  | ready
  | willInsert (snapshot limit : Int)
  | willWrite (snapshot limit : Int)
  | finished (result : SpendResult)
deriving DecidableEq

/-- One in-flight `recordUsage` request. -/
structure SpendThread where
  userId : String
  actionType : String
  creditsUsed : Int
  phase : SpendPhase
deriving DecidableEq

/-- Execute the next atomic database call of thread `t` against `db`.
Mirrors `recordUsage` call for call: validation and profile read with the
balance check, then the log insert (with trigger), then the absolute
credits write from the snapshot. -/
def stepThread (db : DB) (t : SpendThread) : DB × SpendThread :=
  match t.phase with
  | .ready =>
    if t.userId = "" ∨ t.actionType = "" then
      (db, { t with phase := .finished .badRequest })
    else
      match findProfile db t.userId with
      | none => (db, { t with phase := .finished .profileFetchFailed })
      | some profile =>
        if profile.usage_credits < t.creditsUsed then
          (db, { t with phase := .finished (.insufficient profile.usage_credits) })
        else
          (db, { t with phase := .willInsert profile.usage_credits profile.usage_limit })
  | .willInsert snap lim =>
    (insertUsageLog db ⟨t.userId, t.actionType, t.creditsUsed⟩,
     { t with phase := .willWrite snap lim })
  | .willWrite snap lim =>
    ({ db with
        profiles := updateProfiles db.profiles t.userId
          (fun p => { p with usage_credits := snap - t.creditsUsed }) },
     { t with phase := .finished (.accepted t.creditsUsed (snap - t.creditsUsed) lim) })
  | .finished _ => (db, t)

/-- Run two concurrent spend requests under an explicit schedule:
`true` steps the first thread, `false` the second. -/
def runTwo (db : DB) (t1 t2 : SpendThread) :
    List Bool → DB × SpendThread × SpendThread
  | [] => (db, t1, t2)
  | b :: rest =>
    if b then
      let (db', t1') := stepThread db t1
      runTwo db' t1' t2 rest
    else
      let (db', t2') := stepThread db t2
      runTwo db' t1 t2' rest

/-! ## Usage gate (`usage-middleware.ts` / `tracker.ts`) -/

/-- The return value of `checkAndRecordUsage`:
`{ allowed: boolean; error?: string }`. -/
structure MiddlewareResult where
  allowed : Bool
  error : Option String
deriving DecidableEq

/-- `UsageTracker.hasEnoughCredits` (`tracker.ts`, lines 131–143): fetch the
profile through `getUserUsage` and compare `usage_credits >= creditsNeeded`;
any fetch error yields `false`. -/
def hasEnoughCredits (db : DB) (userId : String) (creditsNeeded : Int) : Bool :=
  match findProfile db userId with
  | none => false
  | some profile => creditsNeeded ≤ profile.usage_credits

/-- The error string the tracker hands back for each failing route result:
`data.error` of the non-ok response (`tracker.ts`, lines 66–75).  The 403
response's `creditsRemaining` field is not propagated. -/
def trackerError : SpendResult → Option String
  | .badRequest => some "User ID, action type, and credits used are required"
  | .profileFetchFailed => some "Failed to fetch profile"
  | .insufficient _ => some "Insufficient credits"
  | .accepted _ _ _ => none

/-- `checkAndRecordUsage` (`usage-middleware.ts`, lines 20–56), with the
credential presence checks other than `userId` elided (the keys are opaque
strings the model does not use): first `hasEnoughCredits` — a profile read —
then, only if it passed, `tracker.recordUsage`, which posts to the
`recordUsage` route. -/
def checkAndRecordUsage (db : DB) (userId actionType : String)
    (creditsRequired : Int) : MiddlewareResult × DB :=
  if userId = "" then
    ({ allowed := false, error := some "Missing required credentials" }, db)
  else if !hasEnoughCredits db userId creditsRequired then
    ({ allowed := false, error := some "Insufficient credits" }, db)
  else
    match recordUsage db userId actionType (some creditsRequired) with
    | (.accepted _ _ _, db') => ({ allowed := true, error := none }, db')
    | (r, db') => ({ allowed := false, error := trackerError r }, db')

/-! ## Concrete fixtures used by witnesses and counterexamples -/

/-- A premium account with 10 of 10 credits left. -/
def sampleProfile : Profile :=
  { id := "u1", email := "a@b.c", subscription_tier := "premium",
    subscription_status := "active", usage_credits := 10, usage_limit := 10 }

/-- A price whose product is named "Acme Premium Plan". -/
def samplePrice : PriceRow :=
  { stripe_price_id := "price_1", product_name := some "Acme Premium Plan" }

/-- Store holding just the sample account and price. -/
def sampleDB : DB :=
  { profiles := [sampleProfile], subscriptions := [], usage_logs := [],
    prices := [samplePrice] }

/-- The subscription object of the sample account's premium subscription. -/
def sampleSub : SubObj :=
  { id := "sub_1", status := "active", metadataUserId := some "u1",
    priceId := "price_1", quantity := 1, cancelAtPeriodEnd := false,
    currentPeriodStart := 0, currentPeriodEnd := 100, canceledAt := none,
    cancelAt := none, endedAt := none, trialStart := none, trialEnd := none }

/-- The sample store with the subscription row present. -/
def sampleDBSub : DB :=
  { sampleDB with subscriptions := [subRowOfEvent sampleSub "u1"] }

/-- The external provider's view used by `subscriptions.retrieve`. -/
def sampleStripeEnv : List (String × SubObj) := [("sub_1", sampleSub)]

/-- An `invoice.payment_succeeded` event for the sample subscription. -/
def samplePaidEvent : StripeEvent :=
  .invoicePaymentSucceeded { subscriptionId := some "sub_1", customerId := some "cus_1" } 50

/-- Two concurrent spends of 8 credits against the sample balance of 10. -/
def raceThread1 : SpendThread :=
  { userId := "u1", actionType := "chat", creditsUsed := 8, phase := .ready }

/-- Second concurrent spend of 8 credits. -/
def raceThread2 : SpendThread :=
  { userId := "u1", actionType := "deploy", creditsUsed := 8, phase := .ready }

/-- The interleaving in which both requests read the balance before either
writes: read₁, read₂, insert₁, write₁, insert₂, write₂. -/
def raceSchedule : List Bool := [true, false, true, true, false, false]

/-- The interleaved execution of the two racing spends. -/
def raceRun : DB × SpendThread × SpendThread :=
  runTwo sampleDB raceThread1 raceThread2 raceSchedule

/-- The `occurredAt` (provider `event.created`) timestamp of an event. -/
def eventOccurredAt : StripeEvent → Int
  | .subscriptionCreated _ t => t
  | .subscriptionUpdated _ _ t => t
  | .subscriptionDeleted _ t => t
  | .invoicePaymentSucceeded _ t => t
  | .invoicePaymentFailed _ t => t
  | .otherEvent _ t => t

/-- An `updated: status=active` event carrying timestamp 100. -/
def activeEvent : StripeEvent :=
  .subscriptionUpdated { sampleSub with status := "active" } (some "past_due") 100

/-- An `updated: status=past_due` event carrying the earlier timestamp 50. -/
def stalePastDueEvent : StripeEvent :=
  .subscriptionUpdated { sampleSub with status := "past_due" } (some "active") 50

/-- The subscription object as delivered on the sample deletion event. -/
def sampleSubDeleted : SubObj :=
  { sampleSub with status := "canceled", endedAt := some 99 }

/-- The sample account with only 3 credits left. -/
def lowDB3 : DB :=
  { sampleDB with profiles := [{ sampleProfile with usage_credits := 3 }] }

/-- The sample account with only 7 credits left. -/
def lowDB7 : DB :=
  { sampleDB with profiles := [{ sampleProfile with usage_credits := 7 }] }

/-- The sample profile run down to 3 credits. -/
def lowProfile3 : Profile := { sampleProfile with usage_credits := 3 }

/-- A store holding only an account created by the signup trigger. -/
def triggerAccountDB : DB :=
  { profiles := [handle_new_user "u9" "x@y.z"], subscriptions := [],
    usage_logs := [], prices := [] }

/-- The subscription object delivered on the deletion event for the
trigger-created account. -/
def deletedSubU9 : SubObj :=
  { sampleSub with
      id := "sub_9"
      status := "canceled"
      metadataUserId := some "u9"
      endedAt := some 42 }

/-- A deletion event addressed to the trigger-created account. -/
def deleteEventU9 : StripeEvent :=
  .subscriptionDeleted deletedSubU9 60

/-- The ledger after the sample paid event has been applied once. -/
def paidOnceDB : DB :=
  (processBillingEvent sampleStripeEnv sampleDBSub "evt_1" samplePaidEvent).2

/-- The ledger after the sample paid event and then a 5-credit spend. -/
def paidThenSpentDB : DB :=
  (recordUsage paidOnceDB "u1" "chat" (some 5)).2

/-! ## Helper lemmas -/

theorem updateProfiles_updateProfiles (l : List Profile) (uid : String)
    (f g : Profile → Profile) (hf : ∀ p, (f p).id = p.id) :
    updateProfiles (updateProfiles l uid f) uid g
      = updateProfiles l uid (fun p => g (f p)) := by
  unfold updateProfiles
  rw [List.map_map]
  apply List.map_congr_left
  intro p _
  by_cases h : p.id == uid <;> simp [Function.comp, h, hf]

/-- One `recordUsage` call keeps every profile's balance nonnegative. -/
theorem recordUsage_keeps_nonneg (db : DB) (u a : String) (c : Option Int)
    (h : ∀ p ∈ db.profiles, 0 ≤ p.usage_credits) :
    ∀ p ∈ (recordUsage db u a c).2.profiles, 0 ≤ p.usage_credits := by
  match c with
  | none => simpa [recordUsage] using h
  | some v =>
    by_cases hv : u = "" ∨ a = ""
    · simpa [recordUsage, hv] using h
    · match hfind : findProfile db u with
      | none => simpa [recordUsage, hv, hfind] using h
      | some profile =>
        by_cases hc : profile.usage_credits < v
        · simpa [recordUsage, hv, hfind, hc] using h
        · intro p hp
          simp only [recordUsage, hv, hfind, hc, if_false, insertUsageLog,
            update_usage_credits, updateProfiles, List.map_map,
            List.mem_map] at hp
          obtain ⟨q, hq, rfl⟩ := hp
          by_cases hid : q.id == u
          · simp only [Function.comp, hid, if_true]
            omega
          · simpa [Function.comp, hid] using h q hq

/-- A rejected `recordUsage` call leaves the store untouched; equivalently,
any mutation comes from an accepted call. -/
theorem recordUsage_mutation_is_accepted (db : DB) (u a : String)
    (c : Option Int) :
    (recordUsage db u a c).2 = db ∨
      ∃ cu cr ul, (recordUsage db u a c).1 = .accepted cu cr ul := by
  match c with
  | none => exact .inl rfl
  | some v =>
    by_cases hv : u = "" ∨ a = ""
    · exact .inl (by simp [recordUsage, hv])
    · match hfind : findProfile db u with
      | none => exact .inl (by simp [recordUsage, hv, hfind])
      | some profile =>
        by_cases hc : profile.usage_credits < v
        · exact .inl (by simp [recordUsage, hv, hfind, hc])
        · exact .inr ⟨v, profile.usage_credits - v, profile.usage_limit,
            by simp [recordUsage, hv, hfind, hc]⟩

/-- **C3.** For every account starting with `creditsRemaining ≥ 0`, after any
sequential sequence of `spend` (`recordUsage`) calls every balance is still
`≥ 0`, and the balance never changes at all except through an accepted
spend: a call whose result is not `accepted` returns the store unchanged. -/
theorem spend_sequence_keeps_credits_nonneg (db : DB)
    (reqs : List (String × String × Option Int))
    (h : ∀ p ∈ db.profiles, 0 ≤ p.usage_credits) :
    (∀ p ∈ (spendAll db reqs).profiles, 0 ≤ p.usage_credits) ∧
      (∀ u a c, (recordUsage db u a c).2 = db ∨
        ∃ cu cr ul, (recordUsage db u a c).1 = .accepted cu cr ul) := by
  refine ⟨?_, fun u a c => recordUsage_mutation_is_accepted db u a c⟩
  induction reqs generalizing db with
  | nil => simpa [spendAll] using h
  | cons r t ih =>
    simp only [spendAll, List.foldl_cons] at *
    exact ih _ (recordUsage_keeps_nonneg db r.1 r.2.1 r.2.2 h)

/-- Witness for C3: the sample account (10 credits) run through a mixed
sequence of accepted, denied and malformed spends. -/
theorem spend_sequence_keeps_credits_nonneg_witness :
    (∀ p ∈ sampleDB.profiles, 0 ≤ p.usage_credits) ∧
      ((∀ p ∈ (spendAll sampleDB
          [("u1", "chat", some 5), ("u1", "chat", some 8),
           ("u2", "chat", some 3), ("u1", "", some 1),
           ("u1", "deploy", some 5)]).profiles, 0 ≤ p.usage_credits) ∧
        (∀ u a c, (recordUsage sampleDB u a c).2 = sampleDB ∨
          ∃ cu cr ul, (recordUsage sampleDB u a c).1 = .accepted cu cr ul)) :=
  ⟨by decide,
   spend_sequence_keeps_credits_nonneg sampleDB
     [("u1", "chat", some 5), ("u1", "chat", some 8), ("u2", "chat", some 3),
      ("u1", "", some 1), ("u1", "deploy", some 5)] (by decide)⟩

/-- **C2.** A `spend` whose `creditsUsed` strictly exceeds the account's
current balance fails with the 403 `Insufficient credits` response carrying
exactly the current balance, and performs no mutation at all: the returned
store is the input store. -/
theorem recordUsage_insufficient_no_mutation (db : DB) (u a : String)
    (c : Int) (profile : Profile)
    (hu : u ≠ "") (ha : a ≠ "")
    (hp : findProfile db u = some profile)
    (hc : profile.usage_credits < c) :
    recordUsage db u a (some c) = (.insufficient profile.usage_credits, db) := by
  simp [recordUsage, hu, ha, hp, hc]

/-- Witness for C2: spending 12 of the sample account's 10 credits. -/
theorem recordUsage_insufficient_no_mutation_witness :
    sampleProfile.usage_credits < 12 ∧
      recordUsage sampleDB "u1" "chat" (some 12)
        = (.insufficient sampleProfile.usage_credits, sampleDB) :=
  ⟨by decide,
   recordUsage_insufficient_no_mutation sampleDB "u1" "chat" 12 sampleProfile
     (by decide) (by decide) (by decide) (by decide)⟩

/-- Counterexample to **C9** as stated: the request `creditsUsed = -5` is
not rejected — it is accepted, appends a `usage_logs` entry and raises the
balance from 10 to 15. -/
theorem recordUsage_nonpositive_counterexample :
    (recordUsage sampleDB "u1" "chat" (some (-5))).1 = .accepted (-5) 15 10 ∧
      (recordUsage sampleDB "u1" "chat" (some (-5))).2.usage_logs
        = sampleDB.usage_logs ++ [⟨"u1", "chat", -5⟩] ∧
      (recordUsage sampleDB "u1" "chat" (some (-5))).2.profiles.map
        (fun p => p.usage_credits) = [15] := by decide

/-- **C9 amended.** The route validates only that `creditsUsed` is a number;
whenever `creditsUsed ≤ 0` and the balance is nonnegative the spend is
accepted: a `usage_logs` entry is appended and the balance becomes
`usage_credits - creditsUsed`, which is no decrease (an increase when
`creditsUsed < 0`). -/
theorem recordUsage_accepts_nonpositive (db : DB) (u a : String) (c : Int)
    (profile : Profile)
    (hu : u ≠ "") (ha : a ≠ "")
    (hp : findProfile db u = some profile)
    (hc : c ≤ 0) (h0 : 0 ≤ profile.usage_credits) :
    (recordUsage db u a (some c)).1
        = .accepted c (profile.usage_credits - c) profile.usage_limit ∧
      (recordUsage db u a (some c)).2.usage_logs
        = db.usage_logs ++ [⟨u, a, c⟩] ∧
      profile.usage_credits ≤ profile.usage_credits - c := by
  have hlt : ¬ profile.usage_credits < c := by omega
  refine ⟨?_, ?_, by omega⟩ <;>
    simp [recordUsage, hu, ha, hp, hlt, insertUsageLog]

/-- Witness for C9 amended: `creditsUsed = -5` on the sample account. -/
theorem recordUsage_accepts_nonpositive_witness :
    (-5 : Int) ≤ 0 ∧ (0 : Int) ≤ sampleProfile.usage_credits ∧
      ((recordUsage sampleDB "u1" "chat" (some (-5))).1
          = .accepted (-5) (sampleProfile.usage_credits - (-5))
              sampleProfile.usage_limit ∧
        (recordUsage sampleDB "u1" "chat" (some (-5))).2.usage_logs
          = sampleDB.usage_logs ++ [⟨"u1", "chat", -5⟩] ∧
        sampleProfile.usage_credits ≤ sampleProfile.usage_credits - (-5)) :=
  ⟨by decide, by decide,
   recordUsage_accepts_nonpositive sampleDB "u1" "chat" (-5) sampleProfile
     (by decide) (by decide) (by decide) (by decide) (by decide)⟩

/-! ## C1: the spend path is not atomic -/

/-- **C1 (violated by the code).** `recordUsage` is a read, a local
comparison, a log insert and an absolute write issued as separate database
calls; under the schedule in which both requests read before either writes,
two spends of 8 credits against a balance of 10 BOTH return `accepted`:
16 credits are consumed from a balance of 10 and the stored balance ends at
2 with two `usage_logs` entries, refuting the claimed atomicity. -/
theorem concurrent_spends_both_succeed :
    raceThread1.creditsUsed + raceThread2.creditsUsed >
        sampleProfile.usage_credits ∧
      raceRun.2.1.phase = .finished (.accepted 8 2 10) ∧
      raceRun.2.2.phase = .finished (.accepted 8 2 10) ∧
      raceRun.1.profiles.map (fun p => p.usage_credits) = [2] ∧
      raceRun.1.usage_logs.map (fun l => l.credits_used) = [8, 8] := by
  decide

/-! ## C5: no staleness check on subscription events -/

/-- **C5 (violated by the code).** The subscription upsert and the profile
status write are unconditional: after applying the `status=active` event
with timestamp 100 and then the `status=past_due` event with the earlier
timestamp 50, both the stored subscription row and the profile show
`past_due` — the stale update is applied, not discarded. -/
theorem stale_past_due_overwrites_active :
    eventOccurredAt stalePastDueEvent < eventOccurredAt activeEvent ∧
      ((handleEvent sampleStripeEnv
          (handleEvent sampleStripeEnv sampleDBSub activeEvent).2
          stalePastDueEvent).2.profiles.map
        (fun p => p.subscription_status) = ["past_due"]) ∧
      ((handleEvent sampleStripeEnv
          (handleEvent sampleStripeEnv sampleDBSub activeEvent).2
          stalePastDueEvent).2.subscriptions.map
        (fun r => r.status) = ["past_due"]) := by
  decide

/-! ## C6: subscription deleted downgrades without touching the balance -/

/-- **C6.** Processing `customer.subscription.deleted` acknowledges the
event and rewrites exactly the matching profiles to
`{subscription_status := canceled, subscription_tier := free,
usage_limit := 100}` — the code's free-tier limit on this path — leaving
`usage_credits` (and every other profile of the store) untouched. -/
theorem subscription_deleted_downgrades_without_refill
    (stripeSubs : List (String × SubObj)) (db : DB) (sub : SubObj) (t : Int)
    (uid : String) (hm : sub.metadataUserId = some uid) (hu : uid ≠ "") :
    (handleEvent stripeSubs db (.subscriptionDeleted sub t)).1 = .received ∧
      (handleEvent stripeSubs db (.subscriptionDeleted sub t)).2.profiles
        = db.profiles.map (fun p =>
            if p.id == uid then
              { p with subscription_status := "canceled"
                       subscription_tier := "free"
                       usage_limit := 100 }
            else p) := by
  constructor <;> simp [handleEvent, handleSubscriptionDeleted, hm, hu,
    updateProfiles]

/-- Witness for C6: the deletion event on the active premium sample account
leaves its 10 remaining credits in place while downgrading it. -/
theorem subscription_deleted_downgrades_without_refill_witness :
    sampleSubDeleted.metadataUserId = some "u1" ∧
      ((handleEvent sampleStripeEnv sampleDBSub
          (.subscriptionDeleted sampleSubDeleted 60)).1 = .received ∧
        (handleEvent sampleStripeEnv sampleDBSub
          (.subscriptionDeleted sampleSubDeleted 60)).2.profiles
          = sampleDBSub.profiles.map (fun p =>
              if p.id == "u1" then
                { p with subscription_status := "canceled"
                         subscription_tier := "free"
                         usage_limit := 100 }
              else p)) :=
  ⟨rfl,
   subscription_deleted_downgrades_without_refill sampleStripeEnv sampleDBSub
     sampleSubDeleted 60 "u1" rfl (by decide)⟩

/-! ## C7: tier resolution -/

/-- Counterexample to **C7** as stated: `"Enterprise Premium Plan"` contains
`"enterprise"` (case-insensitively), yet it resolves to `(premium, 2000)`,
because the code tests `includes('premium')` first — refuting the clause
that any name containing `"enterprise"` resolves to `(enterprise, 10000)`. -/
theorem resolveTier_enterprise_clause_counterexample :
    strIncludes (strToLower "Enterprise Premium Plan") "enterprise" = true ∧
      resolveTier (some "Enterprise Premium Plan") = ("premium", 2000) := by
  decide

/-- **C7 amended.** Tier resolution is case-insensitive substring
classification with `premium` tested before `enterprise`: any name
containing `premium` resolves to `(premium, 2000)`; any name containing
`enterprise` but not `premium` resolves to `(enterprise, 10000)`; every
other input — unrecognized names, the empty name and missing product data —
resolves to `(basic, 500)`; in particular `"Acme Premium Plan"` resolves to
`(premium, 2000)` and `"Acme Basic"` to `(basic, 500)`. -/
theorem resolveTier_classification :
    (∀ s, strIncludes (strToLower s) "premium" = true →
        resolveTier (some s) = ("premium", 2000)) ∧
      (∀ s, strIncludes (strToLower s) "premium" = false →
        strIncludes (strToLower s) "enterprise" = true →
        resolveTier (some s) = ("enterprise", 10000)) ∧
      (∀ s, strIncludes (strToLower s) "premium" = false →
        strIncludes (strToLower s) "enterprise" = false →
        resolveTier (some s) = ("basic", 500)) ∧
      resolveTier none = ("basic", 500) ∧
      resolveTier (some "Acme Premium Plan") = ("premium", 2000) ∧
      resolveTier (some "Acme Basic") = ("basic", 500) := by
  refine ⟨?_, ?_, ?_, by decide, by decide, by decide⟩
  · intro s h
    by_cases hs : s = ""
    · subst hs; exact absurd h (by decide)
    · simp [resolveTier, hs, h]
  · intro s h1 h2
    by_cases hs : s = ""
    · subst hs; exact absurd h2 (by decide)
    · simp [resolveTier, hs, h1, h2]
  · intro s h1 h2
    by_cases hs : s = ""
    · subst hs; simp [resolveTier]
    · simp [resolveTier, hs, h1, h2]

/-- Witness for C7 amended: `"Big Enterprise"` contains `enterprise` and not
`premium`, and resolves to `(enterprise, 10000)`. -/
theorem resolveTier_classification_witness :
    strIncludes (strToLower "Big Enterprise") "premium" = false ∧
      strIncludes (strToLower "Big Enterprise") "enterprise" = true ∧
      resolveTier (some "Big Enterprise") = ("enterprise", 10000) :=
  ⟨by decide, by decide,
   resolveTier_classification.2.1 "Big Enterprise" (by decide) (by decide)⟩

/-! ## C8: the usage gate -/

/-- Counterexample to **C8** as stated: denying a 10-credit request against
a balance of 3 and against a balance of 7 produces the *same* middleware
result `{allowed := false, error := "Insufficient credits"}` — the `Denied`
result cannot carry the current remaining balance, since two stores with
different balances yield identical results. -/
theorem checkAndRecordUsage_carries_no_balance :
    (checkAndRecordUsage lowDB3 "u1" "chat" 10).1
        = { allowed := false, error := some "Insufficient credits" } ∧
      (checkAndRecordUsage lowDB7 "u1" "chat" 10).1
        = { allowed := false, error := some "Insufficient credits" } ∧
      lowDB3 ≠ lowDB7 ∧
      (checkAndRecordUsage lowDB3 "u1" "chat" 10).1
        = (checkAndRecordUsage lowDB7 "u1" "chat" 10).1 := by
  decide

/-- **C8 amended.** `checkAndRecordUsage` is a check-then-act pair, not a
wrapper of a single spend: when the balance is short it is the *separate
pre-read* `hasEnoughCredits` that denies, the spend is never attempted, and
the denial is the constant `{allowed := false, error := "Insufficient
credits"}` carrying no balance (the route's 403 `creditsRemaining` field is
dropped by the tracker, see `trackerError`). -/
theorem checkAndRecordUsage_denied_constant (db : DB) (u a : String)
    (c : Int) (profile : Profile) (hu : u ≠ "")
    (hp : findProfile db u = some profile)
    (hc : profile.usage_credits < c) :
    checkAndRecordUsage db u a c
      = ({ allowed := false, error := some "Insufficient credits" }, db) := by
  have hb : hasEnoughCredits db u c = false := by
    simp only [hasEnoughCredits, hp, decide_eq_false_iff_not]
    omega
  simp [checkAndRecordUsage, hu, hb]

/-- Witness for C8 amended: a 10-credit request against the 3-credit store. -/
theorem checkAndRecordUsage_denied_constant_witness :
    findProfile lowDB3 "u1" = some lowProfile3 ∧
      lowProfile3.usage_credits < 10 ∧
      checkAndRecordUsage lowDB3 "u1" "chat" 10
        = ({ allowed := false, error := some "Insufficient credits" }, lowDB3) :=
  ⟨by decide, by decide,
   checkAndRecordUsage_denied_constant lowDB3 "u1" "chat" 10
     lowProfile3 (by decide) (by decide) (by decide)⟩

/-! ## C10: three different "free tier" limits -/

/-- **C10.** The free-tier credit limit is not one constant: the database
signup trigger creates accounts with `usage_limit = usage_credits = 10`,
the sign-up route inserts `usage_limit = usage_credits = 100`, and the
`subscription deleted` branch writes `usage_limit = 100`; consequently a
deletion event on a trigger-created account raises its limit from 10 to
100. -/
theorem free_tier_limits_inconsistent :
    (∀ id email, (handle_new_user id email).usage_credits = 10 ∧
        (handle_new_user id email).usage_limit = 10) ∧
      (∀ id email, (signUpProfile id email).usage_credits = 100 ∧
        (signUpProfile id email).usage_limit = 100) ∧
      (handle_new_user "u9" "x@y.z").usage_limit = 10 ∧
      ((handleEvent [] triggerAccountDB deleteEventU9).2.profiles.map
        (fun p => p.usage_limit) = [100]) :=
  ⟨fun _ _ => ⟨rfl, rfl⟩, fun _ _ => ⟨rfl, rfl⟩, rfl, by decide⟩

theorem upsertSub_upsertSub (l : List SubRow) (row : SubRow) :
    upsertSub (upsertSub l row) row = upsertSub l row := by
  unfold upsertSub
  by_cases h : l.any (fun r => r.stripe_subscription_id == row.stripe_subscription_id) = true
  · rw [if_pos h]
    have hany : (l.map (fun r =>
        if r.stripe_subscription_id == row.stripe_subscription_id then row else r)).any
        (fun r => r.stripe_subscription_id == row.stripe_subscription_id) = true := by
      rw [List.any_eq_true] at h ⊢
      obtain ⟨r, hr, hrow⟩ := h
      refine ⟨row, ?_, by simp⟩
      rw [List.mem_map]
      exact ⟨r, hr, by simp [hrow]⟩
    rw [if_pos hany, List.map_map]
    apply List.map_congr_left
    intro r _
    by_cases hr : r.stripe_subscription_id == row.stripe_subscription_id <;>
      simp [Function.comp, hr]
  · have hmem : ∀ r ∈ l,
        r.stripe_subscription_id ≠ row.stripe_subscription_id := by
      intro r hr hcon
      exact h (List.any_eq_true.mpr ⟨r, hr, by simpa using hcon⟩)
    have hany2 : ((l ++ [row]).any
        (fun r => r.stripe_subscription_id == row.stripe_subscription_id)) = true :=
      List.any_eq_true.mpr ⟨row, by simp, by simp⟩
    rw [if_neg h, if_pos hany2, List.map_append]
    have h1 : l.map (fun r =>
        if r.stripe_subscription_id == row.stripe_subscription_id then row else r) = l :=
      (List.map_congr_left (fun r hr => by simp [hmem r hr])).trans (List.map_id l)
    rw [h1]
    simp

theorem updateProfiles_four (l : List Profile) (uid : String)
    (f g : Profile → Profile)
    (hf : ∀ p, (f p).id = p.id) (hg : ∀ p, (g p).id = p.id)
    (h4 : ∀ p, g (f (g (f p))) = g (f p)) :
    updateProfiles (updateProfiles (updateProfiles (updateProfiles l uid f)
        uid g) uid f) uid g
      = updateProfiles (updateProfiles l uid f) uid g := by
  unfold updateProfiles
  simp only [List.map_map]
  apply List.map_congr_left
  intro p _
  by_cases h : p.id == uid <;> simp [Function.comp, h, hf, hg, h4]

theorem updateProfiles_idem (l : List Profile) (uid : String)
    (f : Profile → Profile)
    (hf : ∀ p, (f p).id = p.id) (hff : ∀ p, f (f p) = f p) :
    updateProfiles (updateProfiles l uid f) uid f = updateProfiles l uid f := by
  unfold updateProfiles
  simp only [List.map_map]
  apply List.map_congr_left
  intro p _
  by_cases h : p.id == uid <;> simp [Function.comp, h, hf, hff]

theorem updateSubs_idem (l : List SubRow) (sid : String)
    (f : SubRow → SubRow)
    (hf : ∀ r, (f r).stripe_subscription_id = r.stripe_subscription_id)
    (hff : ∀ r, f (f r) = f r) :
    updateSubs (updateSubs l sid f) sid f = updateSubs l sid f := by
  unfold updateSubs
  simp only [List.map_map]
  apply List.map_congr_left
  intro r _
  by_cases h : r.stripe_subscription_id == sid <;> simp [Function.comp, h, hf, hff]

theorem handleSubscriptionDeleted_replay (db : DB) (sub : SubObj) :
    handleSubscriptionDeleted (handleSubscriptionDeleted db sub).2 sub
      = handleSubscriptionDeleted db sub := by
  unfold handleSubscriptionDeleted
  cases hm : sub.metadataUserId with
  | none => rfl
  | some uid =>
    dsimp only
    by_cases hu : uid = ""
    · simp [hu]
    · simp only [hu, ite_false]
      refine congrArg (Prod.mk _) ?_
      dsimp only
      congr 1
      · exact updateProfiles_idem _ _ _ (fun _ => rfl) (fun _ => rfl)
      · exact updateSubs_idem _ _ _ (fun _ => rfl) (fun _ => rfl)

theorem handleInvoiceFailed_replay (db : DB) (inv : InvoiceObj) :
    handleInvoiceFailed (handleInvoiceFailed db inv).2 inv
      = handleInvoiceFailed db inv := by
  unfold handleInvoiceFailed
  by_cases hf : jsFalsy inv.subscriptionId = true
  · simp [hf]
  · simp only [hf, Bool.false_eq_true, ite_false]
    cases hsid : inv.subscriptionId with
    | none => rfl
    | some sid =>
      dsimp only
      cases hrow : findSubRow db sid with
      | none =>
        dsimp only
        rw [hrow]
      | some row =>
        dsimp only
        have hrow2 : findSubRow
            (DB.mk (updateProfiles db.profiles row.user_id
              (fun p => { p with subscription_status := "past_due" }))
              db.subscriptions db.usage_logs db.prices) sid = some row := hrow
        rw [hrow2]
        refine congrArg (Prod.mk _) ?_
        dsimp only
        congr 1
        exact updateProfiles_idem _ _ _ (fun _ => rfl) (fun _ => rfl)

theorem handleInvoicePaid_replay (stripeSubs : List (String × SubObj))
    (db : DB) (inv : InvoiceObj) :
    handleInvoicePaid stripeSubs (handleInvoicePaid stripeSubs db inv).2 inv
      = handleInvoicePaid stripeSubs db inv := by
  unfold handleInvoicePaid
  by_cases hf : (jsFalsy inv.subscriptionId || jsFalsy inv.customerId) = true
  · simp [hf]
  · simp only [hf, Bool.false_eq_true, ite_false]
    cases hsid : inv.subscriptionId with
    | none => rfl
    | some sid =>
      dsimp only
      cases hrow : findSubRow db sid with
      | none =>
        dsimp only
        rw [hrow]
      | some row =>
        dsimp only
        cases hstripe : stripeSubs.find? (fun s => s.1 == sid) with
        | none =>
          dsimp only
          rw [hrow]
        | some pair =>
          obtain ⟨sid1, ssub⟩ := pair
          dsimp only
          have hrow2 : findSubRow
              (DB.mk (updateProfiles db.profiles row.user_id
                (fun p => { p with
                  usage_credits :=
                    (resolveTier (lookupProductName db.prices ssub.priceId)).2
                  usage_limit :=
                    (resolveTier (lookupProductName db.prices ssub.priceId)).2 }))
                db.subscriptions db.usage_logs db.prices) sid = some row := hrow
          rw [hrow2]
          refine congrArg (Prod.mk _) ?_
          dsimp only
          congr 1
          exact updateProfiles_idem _ _ _ (fun _ => rfl) (fun _ => rfl)

theorem handleSubscriptionUpsert_replay (db : DB) (sub : SubObj) (b : Bool)
    (prev : Option String) :
    handleSubscriptionUpsert (handleSubscriptionUpsert db sub b prev).2 sub b prev
      = handleSubscriptionUpsert db sub b prev := by
  unfold handleSubscriptionUpsert
  cases hm : sub.metadataUserId with
  | none => rfl
  | some uid =>
    dsimp only
    by_cases hu : uid = ""
    · simp [hu]
    · simp only [hu, ite_false]
      by_cases hr : isReactivation sub.status b prev = true
      · simp only [hr, ite_true]
        refine congrArg (Prod.mk _) ?_
        dsimp only
        congr 1
        · exact updateProfiles_four _ _ _ _ (fun _ => rfl) (fun _ => rfl)
            (fun _ => rfl)
        · exact upsertSub_upsertSub _ _
      · simp only [hr, Bool.false_eq_true, ite_false]
        refine congrArg (Prod.mk _) ?_
        dsimp only
        congr 1
        · exact updateProfiles_idem _ _ _ (fun _ => rfl) (fun _ => rfl)
        · exact upsertSub_upsertSub _ _

/-! ## C4: replaying a billing event -/

/-- **C4 amended.** Replaying a billing event immediately produces the same
response and ledger state as applying it once: every write of every branch
is an absolute value derived from the event (and the read-only `prices`
table and provider state), so the processor is idempotent as a function —
even though it consults no idempotency store. -/
theorem billing_event_replay (stripeSubs : List (String × SubObj)) (db : DB)
    (eventId : String) (e : StripeEvent) :
    processBillingEvent stripeSubs
        (processBillingEvent stripeSubs db eventId e).2 eventId e
      = processBillingEvent stripeSubs db eventId e := by
  cases e with
  | subscriptionCreated sub t =>
    exact handleSubscriptionUpsert_replay db sub true none
  | subscriptionUpdated sub prev t =>
    exact handleSubscriptionUpsert_replay db sub false prev
  | subscriptionDeleted sub t => exact handleSubscriptionDeleted_replay db sub
  | invoicePaymentSucceeded inv t => exact handleInvoicePaid_replay stripeSubs db inv
  | invoicePaymentFailed inv t => exact handleInvoiceFailed_replay db inv
  | otherEvent n t => rfl

/-- Counterexample to **C4** as stated: no branch consults an idempotency
store — `processBillingEvent` ignores `eventId` and re-executes its
mutations on redelivery.  After the sample paid event (balance reset to
2000) and an intervening 5-credit spend (balance 1995), redelivering the
*same* event id `"evt_1"` mutates the ledger again, resetting the balance to
2000 instead of returning success without re-executing any mutation. -/
theorem webhook_replay_reexecutes_mutations :
    (paidOnceDB.profiles.map (fun p => p.usage_credits) = [2000]) ∧
      (paidThenSpentDB.profiles.map (fun p => p.usage_credits) = [1995]) ∧
      ((processBillingEvent sampleStripeEnv paidThenSpentDB "evt_1"
          samplePaidEvent).2.profiles.map (fun p => p.usage_credits) = [2000]) ∧
      (processBillingEvent sampleStripeEnv paidThenSpentDB "evt_1"
          samplePaidEvent).2 ≠ paidThenSpentDB := by
  decide


/-- **C5 amended.** An incoming `customer.subscription.updated` event
updates the stored record unconditionally: the handler never reads the
event's `occurredAt` (the result is identical for any two timestamps), and
the profile's stored status becomes the event's status for the matching
account — so a stale `past_due` arriving after `active` overwrites it. -/
theorem subscription_update_unconditional (stripeSubs : List (String × SubObj))
    (db : DB) (sub : SubObj) (prev : Option String) (t tAlt : Int)
    (uid : String) (hm : sub.metadataUserId = some uid) (hu : uid ≠ "") :
    handleEvent stripeSubs db (.subscriptionUpdated sub prev t)
        = handleEvent stripeSubs db (.subscriptionUpdated sub prev tAlt) ∧
      (handleEvent stripeSubs db (.subscriptionUpdated sub prev t)).2.profiles.map
          (fun p => p.subscription_status)
        = db.profiles.map (fun p =>
            if p.id == uid then sub.status else p.subscription_status) := by
  refine ⟨rfl, ?_⟩
  by_cases hr : isReactivation sub.status false prev = true
  · simp only [handleEvent, handleSubscriptionUpsert, hm, hu, ite_false,
      hr, ite_true, updateProfiles, List.map_map]
    apply List.map_congr_left
    intro p _
    by_cases hid : p.id == uid <;> simp [Function.comp, hid]
  · simp only [handleEvent, handleSubscriptionUpsert, hm, hu, ite_false,
      hr, Bool.false_eq_true, ite_false, updateProfiles, List.map_map]
    apply List.map_congr_left
    intro p _
    by_cases hid : p.id == uid <;> simp [Function.comp, hid]

/-- Witness for C5 amended: the stale `past_due` event on the sample store,
with an alternative timestamp, and the resulting overwritten status. -/
theorem subscription_update_unconditional_witness :
    ({ sampleSub with status := "past_due" } : SubObj).metadataUserId
        = some "u1" ∧
      (handleEvent sampleStripeEnv sampleDBSub
          (.subscriptionUpdated { sampleSub with status := "past_due" }
            (some "active") 50)
        = handleEvent sampleStripeEnv sampleDBSub
            (.subscriptionUpdated { sampleSub with status := "past_due" }
              (some "active") 9999) ∧
       (handleEvent sampleStripeEnv sampleDBSub
          (.subscriptionUpdated { sampleSub with status := "past_due" }
            (some "active") 50)).2.profiles.map
            (fun p => p.subscription_status)
        = sampleDBSub.profiles.map (fun p =>
            if p.id == "u1" then "past_due" else p.subscription_status)) :=
  ⟨rfl,
   subscription_update_unconditional sampleStripeEnv sampleDBSub
     { sampleSub with status := "past_due" } (some "active") 50 9999 "u1"
     rfl (by decide)⟩

end BoltBilling
